import Mathlib

/-!
Shallow embedding of `generate.py`, the Dunedin City Council recycling
calendar generator.  Calendar dates are represented by their proleptic
Gregorian day number (days since 0000-03-01, Hinnant's civil-day count),
so that Python's `date` arithmetic (`+ timedelta(days = n)`) becomes `+ n`
on `Nat`, and `str(date)` (ISO `YYYY-MM-DD`) is recovered with the inverse
conversion `civilFromDays`.  The per-year week-walking loop
(`for week in count(): ...`) is embedded as a fuel-indexed recursion
`yearEventsE`; exhausting the fuel is an explicit `Except.error`, so an
`.ok` result certifies that the Python loop reached its `break`.
A missing dictionary entry (Python `KeyError`) is likewise an
`Except.error`.
-/

namespace Recycling

/-- Day number of the Gregorian date y-m-d (days since 0000-03-01). -/
def civil (y m d : Nat) : Nat :=
  let yy := if m ≤ 2 then y - 1 else y
  let era := yy / 400
  let yoe := yy % 400
  let mp := (m + 9) % 12
  let doy := (153 * mp + 2) / 5 + (d - 1)
  let doe := yoe * 365 + yoe / 4 - yoe / 100 + doy
  era * 146097 + doe

/-- Inverse of `civil`: day number back to (year, month, day). -/
def civilFromDays (z : Nat) : Nat × Nat × Nat :=
  let era := z / 146097
  let doe := z % 146097
  let yoe := (doe - doe / 1460 + doe / 36524 - doe / 146096) / 365
  let y := yoe + era * 400
  let doy := doe - (365 * yoe + yoe / 4 - yoe / 100)
  let mp := (5 * doy + 2) / 153
  let d := doy - (153 * mp + 2) / 5 + 1
  let m := if mp < 10 then mp + 3 else mp - 9
  (if m ≤ 2 then y + 1 else y, m, d)

def pad2 (n : Nat) : String :=
  if n < 10 then "0" ++ toString n else toString n

/-- ISO rendering `YYYY-MM-DD` of a day number, matching Python `str(date)`. -/
def isoOfDays (z : Nat) : String :=
  match civilFromDays z with
  | (y, m, d) => toString y ++ "-" ++ pad2 m ++ "-" ++ pad2 d

/-- `exceptions`: if a pickup would normally be `key`, do it `value` instead
(`none` value = no pickup that week). -/
def exceptions : List (Nat × Option Nat) := [
  (civil 2021 4 2, some (civil 2021 4 3)),
  (civil 2022 1 31, none),
  (civil 2022 4 15, some (civil 2022 4 16)),
  (civil 2023 4 7, some (civil 2023 4 8)),
  (civil 2023 12 25, some (civil 2023 12 30)),
  (civil 2024 1 1, some (civil 2024 1 6)),
  (civil 2024 3 29, some (civil 2024 3 30)),
  (civil 2024 12 25, some (civil 2024 12 28)),
  (civil 2025 1 1, some (civil 2025 1 4)),
  (civil 2025 4 18, some (civil 2025 4 19)),
  (civil 2025 12 25, some (civil 2025 12 27)),
  (civil 2026 1 1, some (civil 2026 1 3)),
  (civil 2026 4 3, some (civil 2026 4 4)),
  (civil 2026 12 25, some (civil 2026 12 26))]

/-- `first_day_of_week`: year → weekday name → first "week one" pickup date.
List order is the Python dict insertion order (iteration order). -/
def first_day_of_week : List (Nat × List (String × Nat)) := [
  (2021, [("Monday", civil 2021 2 1), ("Tuesday", civil 2021 2 2),
          ("Wednesday", civil 2021 2 3), ("Thursday", civil 2021 2 4),
          ("Friday", civil 2021 2 5)]),
  (2022, [("Monday", civil 2022 1 31), ("Tuesday", civil 2022 2 1),
          ("Wednesday", civil 2022 2 2), ("Thursday", civil 2022 2 3),
          ("Friday", civil 2022 2 4)]),
  (2023, [("Monday", civil 2023 1 2), ("Tuesday", civil 2023 2 3),
          ("Wednesday", civil 2023 2 4), ("Thursday", civil 2023 2 5),
          ("Friday", civil 2023 2 6)]),
  (2024, [("Monday", civil 2024 1 1), ("Tuesday", civil 2024 1 2),
          ("Wednesday", civil 2024 1 3), ("Thursday", civil 2024 1 4),
          ("Friday", civil 2024 1 5)]),
  (2025, [("Monday", civil 2025 1 13), ("Tuesday", civil 2025 1 14),
          ("Wednesday", civil 2025 1 1), ("Thursday", civil 2025 1 2),
          ("Friday", civil 2025 1 3)]),
  (2026, [("Monday", civil 2026 1 12), ("Tuesday", civil 2026 1 13),
          ("Wednesday", civil 2026 1 14), ("Thursday", civil 2026 1 1),
          ("Friday", civil 2026 1 2)])]

/-- `last_day_of_year`: stop generation for a year after this date. -/
def last_day_of_year : List (Nat × Nat) := [
  (2021, civil 2022 1 31),
  (2022, civil 2023 1 31),
  (2023, civil 2023 12 30),
  (2024, civil 2024 12 31),
  (2025, civil 2025 12 31),
  (2026, civil 2026 12 31)]

/-- `red_bins_start`: after this day the new (red-bin era) templates apply. -/
def red_bins_start : Nat := civil 2024 7 1

def colours : List String := ["Yellow", "Blue"]

def day_of_week : List String :=
  ["Monday", "Tuesday", "Wednesday", "Thursday", "Friday"]

/-- Association-list lookup, modelling Python dict `[]` on `last_day_of_year`. -/
def lookupNat (l : List (Nat × Nat)) (k : Nat) : Option Nat :=
  (l.find? (fun p => p.1 == k)).map Prod.snd

/-- Association-list lookup, modelling Python dict `[]` on a per-year
weekday table. -/
def lookupStr (l : List (String × Nat)) (k : String) : Option Nat :=
  (l.find? (fun p => p.1 == k)).map Prod.snd

/-- `start in exceptions` plus `exceptions[start]`: `some v` when `start`
is a key (with `v` the mapped value, possibly `none`), `none` otherwise. -/
def exceptionLookup (d : Nat) : Option (Option Nat) :=
  (exceptions.find? (fun p => p.1 == d)).map Prod.snd

/-- Lines 171-175 of the source: replace a candidate by its exception-table
image when present; result `none` means "no pickup this week". -/
def resolveDate (d : Nat) : Option Nat :=
  match exceptionLookup d with
  | some v => v
  | none => some d

structure Event where
  summary : String
  description : String
  dtstart : Nat
  dtend : Nat
  uid : String
deriving DecidableEq

def emptyEvent : Event := ⟨"", "", 0, 0, ""⟩

/-- `make_event` (old, pre-red-bin templates). -/
def make_event (colour : String) : Event :=
  if colour == "Yellow" then
    { emptyEvent with
      summary := "📦 Yellow bin",
      description := "YELLOW WEEK: Rinsed rigid plastics\n1, 2 and 5 only, tins, cans, and clean\npaper and cardboard. No caps, lids,\npumps or trigger sprays.\n\nPlace all recycling and DCC black bags\nkerbside by 7am on your collection day." }
  else if colour == "Blue" then
    { emptyEvent with
      summary := "🍾 Blue bin",
      description := "BLUE WEEK: Unbroken glass\nbottles and jars, with NO lids.\nNo mirror glass.\n\nPlace all recycling and DCC black bags\nkerbside by 7am on your collection day." }
  else emptyEvent

/-- `make_new_event` (new, red-bin-era templates). -/
def make_new_event (colour : String) : Event :=
  if colour == "Yellow" then
    { emptyEvent with
      summary := "🍂📦 Green and Yellow",
      description := "Yellow bin: Rinsed rigid plastics\n1, 2 and 5 only, tins, cans, and clean\npaper and cardboard. No caps, lids,\npumps or trigger sprays.\n\nPlace bins kerbside by 7am on your collection day." }
  else if colour == "Blue" then
    { emptyEvent with
      summary := "🍂🗑️🍾 Green, Red, and Blue",
      description := "Blue Bin: Unbroken glass\nbottles and jars, with NO lids.\nNo mirror glass.\n\nPlace bins kerbside by 7am on your collection day." }
  else emptyEvent

/-- Line 179: `colours[(colour_index + week) % len(colours)]`. -/
def colourFor (i week : Nat) : String :=
  colours.getD ((i + week) % colours.length) ""

/-- Lines 180-183: pick the new or old template by the cutover date. -/
def templateFor (colour : String) (start : Nat) : Event :=
  if red_bins_start ≤ start then make_new_event colour else make_event colour

/-- ISO uid string, line 187: `"recycling-week{}-{}".format(colour_index+1, start)`. -/
def mkUid (i start : Nat) : String :=
  "recycling-week" ++ toString (i + 1) ++ "-" ++ isoOfDays start

/-- Lines 179-188: build one emitted event from the bin-type index, the
(pre-exception) week counter and the resolved start date. -/
def mkEvent (i week start : Nat) : Event :=
  { templateFor (colourFor i week) start with
    dtstart := start, dtend := start + 1, uid := mkUid i start }

/-- Lines 168-189, the `for week in count()` loop for one year.  `first` is
`first_day_of_week[year][weekday]`, `bound?` is the (possibly missing)
`last_day_of_year[year]` entry, whose absence raises only when the
comparison on line 176 is reached.  `fuel` bounds the unrolling: running
out is an `.error`, so `.ok` certifies the `break` was reached. -/
def yearEventsE (i first : Nat) (bound? : Option Nat) :
    Nat → Nat → Except String (List Event)
  | 0, _ => .error "fuel exhausted"
  | fuel + 1, week =>
    match resolveDate (first + 7 * week) with
    | none => yearEventsE i first bound? fuel (week + 1)
    | some s =>
      match bound? with
      | none => .error "KeyError: last_day_of_year"
      | some bound =>
        if bound < s then .ok []
        else
          match yearEventsE i first bound? fuel (week + 1) with
          | .error msg => .error msg
          | .ok rest => .ok (mkEvent i week s :: rest)

/-- Lines 165-189: process the years of `first_day_of_week` in table order,
appending each year's events; a `KeyError` on either table aborts.  The
table of years is a parameter so that behaviour on configurations with
missing entries can be stated. -/
def buildYearsT (ldoy : List (Nat × Nat)) (i : Nat) (wd : String)
    (fuel : Nat) : List (Nat × List (String × Nat)) → Except String (List Event)
  | [] => .ok []
  | (y, tbl) :: rest =>
    match lookupStr tbl wd with
    | none => .error "KeyError: first_day_of_week weekday"
    | some first =>
      match yearEventsE i first (lookupNat ldoy y) fuel 0 with
      | .error msg => .error msg
      | .ok evs =>
        match buildYearsT ldoy i wd fuel rest with
        | .error msg => .error msg
        | .ok more => .ok (evs ++ more)

def FUEL : Nat := 200

/-- All events of the single calendar document for bin-type index `i` and
weekday `wd`, on the actual configuration tables. -/
def calendarEventsE (i : Nat) (wd : String) : Except String (List Event) :=
  buildYearsT last_day_of_year i wd FUEL first_day_of_week

def calendarEvents (i : Nat) (wd : String) : List Event :=
  (calendarEventsE i wd).toOption.getD []

def isOkB {ε α : Type} : Except ε α → Bool
  | .ok _ => true
  | .error _ => false

/-- ASCII lowercase of one character, as Python `str.lower` acts on the
weekday names. -/
def lowerChar (c : Char) : Char :=
  if 65 ≤ c.toNat ∧ c.toNat ≤ 90 then Char.ofNat (c.toNat + 32) else c

/-- `weekday.lower()`. -/
def lowerStr (s : String) : String := String.mk (s.data.map lowerChar)

/-- Line 157: `"week-{}-{}.ics".format(colour_index+1, weekday.lower())`. -/
def mk_filename (i : Nat) (wd : String) : String :=
  "week-" ++ toString (i + 1) ++ "-" ++ lowerStr wd ++ ".ics"

/-- The filenames produced by one run, in loop order (lines 155-157). -/
def outputFiles : List String :=
  (List.range colours.length).flatMap (fun i => day_of_week.map (mk_filename i))

/-- Filename/content pairs produced by one run. -/
def outputPairs : List (String × List Event) :=
  (List.range colours.length).flatMap
    (fun i => day_of_week.map (fun wd => (mk_filename i wd, calendarEvents i wd)))

/-- One run's effect on a filesystem (filename → contents): every generated
file is written afresh (`open(..., "wb")` truncates), everything else is
left alone. -/
def writeRun (fs : String → Option (List Event)) : String → Option (List Event) :=
  fun name =>
    match outputPairs.find? (fun p => p.1 == name) with
    | some p => some p.2
    | none => fs name

example : civil 2021 2 1 + 7 = civil 2021 2 8 := by decide

example : civil 2021 12 31 + 1 = civil 2022 1 1 := by decide

example : isoOfDays (civil 2023 1 2) = "2023-01-02" := by decide

example : mkUid 0 (civil 2023 1 2) = "recycling-week1-2023-01-02" := by decide

example : resolveDate (civil 2022 1 31) = none := by decide

example : resolveDate (civil 2021 4 2) = some (civil 2021 4 3) := by decide

example : resolveDate (civil 2021 4 5) = some (civil 2021 4 5) := by decide

theorem exceptionLookup_mem {d : Nat} {v : Option Nat}
    (h : exceptionLookup d = some v) : (d, v) ∈ exceptions := by
  unfold exceptionLookup at h
  rcases Option.map_eq_some'.mp h with ⟨⟨a, b⟩, hfind, hsnd⟩
  have hmem := List.mem_of_find?_eq_some hfind
  have hp := List.find?_some hfind
  have ha : a = d := by simpa using hp
  have hb : b = v := hsnd
  subst ha
  subst hb
  exact hmem

theorem resolveDate_none {d : Nat} (h : resolveDate d = none) :
    d = civil 2022 1 31 := by
  unfold resolveDate at h
  split at h
  next v hl =>
    subst h
    have hmem := exceptionLookup_mem hl
    have hall : exceptions.all
        (fun p => p.2.isSome || (p.1 == civil 2022 1 31)) = true := by decide
    have hx := List.all_eq_true.mp hall _ hmem
    simpa using hx
  next hl => cases h

theorem yearEventsE_noBound_error (i first week fuel : Nat) (hfuel : 2 ≤ fuel) :
    ∃ msg, yearEventsE i first none fuel week = .error msg := by
  obtain ⟨f, rfl⟩ : ∃ f, fuel = f + 2 := ⟨fuel - 2, by omega⟩
  cases h1 : resolveDate (first + 7 * week) with
  | some s =>
    exact ⟨"KeyError: last_day_of_year", by simp [yearEventsE, h1]⟩
  | none =>
    cases h2 : resolveDate (first + 7 * (week + 1)) with
    | some s =>
      exact ⟨"KeyError: last_day_of_year", by simp [yearEventsE, h1, h2]⟩
    | none =>
      exfalso
      have e1 := resolveDate_none h1
      have e2 := resolveDate_none h2
      omega

/-- Claim C2: the resolver's stop condition compares the post-exception
candidate against the year's last-day bound: a possibly-replaced candidate
strictly beyond the bound stops resolution for the year without being
emitted, while a candidate exactly on the bound is emitted. -/
theorem C2_bound_check (i first bound fuel week s : Nat)
    (hres : resolveDate (first + 7 * week) = some s) :
    (bound < s → yearEventsE i first (some bound) (fuel + 1) week = .ok []) ∧
    (s ≤ bound → yearEventsE i first (some bound) (fuel + 1) week =
      (yearEventsE i first (some bound) fuel (week + 1)).map
        (fun rest => mkEvent i week s :: rest)) := by
  constructor
  · intro hlt
    simp [yearEventsE, hres, hlt]
  · intro hle
    have hnlt : ¬ bound < s := by omega
    simp only [yearEventsE, hres, if_neg hnlt]
    cases yearEventsE i first (some bound) fuel (week + 1) <;> simp [Except.map]

/-- Witness for C2, on the boundary-crossing exception 2022-04-15 →
2022-04-16: with the bound set to 2022-04-15 the replaced candidate
exceeds it and nothing is emitted; with the bound on 2022-04-16 the
candidate sits exactly on the bound and is emitted. -/
theorem C2_witness :
    yearEventsE 0 (civil 2022 4 15) (some (civil 2022 4 15)) 3 0 = .ok [] ∧
    yearEventsE 0 (civil 2022 4 15) (some (civil 2022 4 16)) 3 0 =
      (yearEventsE 0 (civil 2022 4 15) (some (civil 2022 4 16)) 2 1).map
        (fun rest => mkEvent 0 0 (civil 2022 4 16) :: rest) :=
  ⟨(C2_bound_check 0 (civil 2022 4 15) (civil 2022 4 15) 2 0 (civil 2022 4 16)
      (by decide)).1 (by decide),
   (C2_bound_check 0 (civil 2022 4 15) (civil 2022 4 16) 2 0 (civil 2022 4 16)
      (by decide)).2 (by decide)⟩

/-- Claim C3: a candidate whose exception-table entry is the "no
occurrence" marker produces no event and the walk continues with the next
weekly candidate; the week counter of every later candidate is exactly
what it would have been anyway (the continuation starts at week + 1), so
colour selection suffers no off-by-one drift. -/
theorem C3_none_skip (i first fuel week : Nat) (b? : Option Nat)
    (hnone : resolveDate (first + 7 * week) = none) :
    yearEventsE i first b? (fuel + 1) week =
      yearEventsE i first b? fuel (week + 1) := by
  simp [yearEventsE, hnone]

/-- Witness for C3 at the one null exception, 2022-01-31 → no occurrence. -/
theorem C3_witness :
    yearEventsE 0 (civil 2022 1 31) (some (civil 2022 12 31)) 2 0 =
      yearEventsE 0 (civil 2022 1 31) (some (civil 2022 12 31)) 1 1 :=
  C3_none_skip 0 (civil 2022 1 31) 1 0 (some (civil 2022 12 31)) (by decide)

/-- Claim C5: the colour handed to an emitted event is
`colours[(bin_type_index + week) mod 2]`; at bin-type index 0 week 0 it is
`rotation[0] = "Yellow"`, at week 1 it is `rotation[1] = "Blue"`, and for a
fixed bin-type index the colour sequence has period 2 in the week index. -/
theorem C5_colour_rotation (i w : Nat) :
    colourFor i w = colours.getD ((i + w) % 2) "" ∧
    colourFor 0 0 = "Yellow" ∧ colourFor 0 1 = "Blue" ∧
    colourFor i (w + 2) = colourFor i w := by
  refine ⟨rfl, rfl, rfl, ?_⟩
  unfold colourFor
  have hlen : colours.length = 2 := rfl
  rw [hlen]
  have : (i + (w + 2)) % 2 = (i + w) % 2 := by omega
  rw [this]

/-- Claim C4: an emitted event whose resolved date is on or after the
cutover `red_bins_start` carries the new template for its colour, one
strictly before the cutover carries the old template; there are exactly
two colours and exactly two template eras. -/
theorem C4_template_selection (i w s : Nat) :
    colours.length = 2 ∧
    (templateFor (colourFor i w) s = make_new_event (colourFor i w) ∨
     templateFor (colourFor i w) s = make_event (colourFor i w)) ∧
    (red_bins_start ≤ s →
      (mkEvent i w s).summary = (make_new_event (colourFor i w)).summary ∧
      (mkEvent i w s).description = (make_new_event (colourFor i w)).description) ∧
    (s < red_bins_start →
      (mkEvent i w s).summary = (make_event (colourFor i w)).summary ∧
      (mkEvent i w s).description = (make_event (colourFor i w)).description) := by
  refine ⟨rfl, ?_, ?_, ?_⟩
  · unfold templateFor
    split
    · exact Or.inl rfl
    · exact Or.inr rfl
  · intro h
    unfold mkEvent templateFor
    rw [if_pos h]
    exact ⟨rfl, rfl⟩
  · intro h
    unfold mkEvent templateFor
    rw [if_neg (by omega)]
    exact ⟨rfl, rfl⟩

/-- Witness for C4: the cutover day itself takes the new template and the
day immediately before it takes the old one. -/
theorem C4_witness :
    ((mkEvent 0 0 red_bins_start).summary =
        (make_new_event (colourFor 0 0)).summary ∧
     (mkEvent 0 0 red_bins_start).description =
        (make_new_event (colourFor 0 0)).description) ∧
    ((mkEvent 0 0 (red_bins_start - 1)).summary =
        (make_event (colourFor 0 0)).summary ∧
     (mkEvent 0 0 (red_bins_start - 1)).description =
        (make_event (colourFor 0 0)).description) :=
  ⟨(C4_template_selection 0 0 red_bins_start).2.2.1 (Nat.le_refl _),
   (C4_template_selection 0 0 (red_bins_start - 1)).2.2.2 (by decide)⟩

/-- Claim C6: the exception-table resolution map is idempotent — if a
nominal date resolves to an actual date, that actual date resolves to
itself (no replacement target is itself an exception key). -/
theorem C6_exception_idempotent (d e : Nat) (h : resolveDate d = some e) :
    resolveDate e = some e := by
  unfold resolveDate at h
  split at h
  next v hl =>
    subst h
    have hmem := exceptionLookup_mem hl
    have hall : exceptions.all
        (fun p => match p.2 with
          | none => true
          | some x => (exceptionLookup x).isNone) = true := by decide
    have hx : (exceptionLookup e).isNone = true := List.all_eq_true.mp hall _ hmem
    have hx2 : exceptionLookup e = none := Option.isNone_iff_eq_none.mp hx
    unfold resolveDate
    rw [hx2]
  next hl =>
    obtain rfl := Option.some.inj h
    unfold resolveDate
    rw [hl]

/-- Witness for C6 at the first exception entry. -/
theorem C6_witness : resolveDate (civil 2021 4 3) = some (civil 2021 4 3) :=
  C6_exception_idempotent (civil 2021 4 2) (civil 2021 4 3) (by decide)

/-- Claim C7: every event an `.ok` resolver run emits was built by
`mkEvent` from some week index and the resolved date of that week's
candidate; its `dtstart` is the resolved date, its `dtend` is the resolved
date plus one day, and its `uid` is the deterministic function `mkUid` of
exactly the bin-type index and the resolved date, hence stable across
regenerations. -/
theorem C7_event_fields (i first : Nat) (b? : Option Nat) :
    ∀ fuel week evs, yearEventsE i first b? fuel week = .ok evs →
    ∀ e ∈ evs, ∃ w s, resolveDate (first + 7 * w) = some s ∧
      e = mkEvent i w s ∧ e.dtstart = s ∧
      e.dtend = e.dtstart + 1 ∧ e.uid = mkUid i e.dtstart := by
  intro fuel
  induction fuel with
  | zero =>
    intro week evs h
    simp [yearEventsE] at h
  | succ f ih =>
    intro week evs h e he
    simp only [yearEventsE] at h
    split at h
    · exact ih (week + 1) evs h e he
    next s hr =>
      split at h
      · cases h
      · split at h
        · obtain rfl := Except.ok.inj h
          cases he
        · split at h
          · cases h
          next rest hrec =>
            obtain rfl := Except.ok.inj h
            rcases List.mem_cons.mp he with rfl | htail
            · exact ⟨week, s, hr, rfl, rfl, rfl, rfl⟩
            · exact ih (week + 1) rest hrec e htail

/-- Witness for C7 on a one-event resolver run. -/
theorem C7_witness :
    ∃ w s, resolveDate (civil 2021 2 1 + 7 * w) = some s ∧
      mkEvent 0 0 (civil 2021 2 1) = mkEvent 0 w s ∧
      (mkEvent 0 0 (civil 2021 2 1)).dtstart = s ∧
      (mkEvent 0 0 (civil 2021 2 1)).dtend =
        (mkEvent 0 0 (civil 2021 2 1)).dtstart + 1 ∧
      (mkEvent 0 0 (civil 2021 2 1)).uid =
        mkUid 0 (mkEvent 0 0 (civil 2021 2 1)).dtstart :=
  C7_event_fields 0 (civil 2021 2 1) (some (civil 2021 2 1)) 2 0
    [mkEvent 0 0 (civil 2021 2 1)] rfl
    (mkEvent 0 0 (civil 2021 2 1)) (List.mem_singleton.mpr rfl)

set_option maxRecDepth 100000 in
/-- Claim C1, counterexample: the claim as stated is false on the actual
configuration.  In the week-1 Monday document the resolved dates are not
duplicate-free — the 2022 table's bound (2023-01-31) reaches past the 2023
table's first Monday (2023-01-02), so 2023-01-02 is emitted by both the
2022 and the 2023 loop and the uid "recycling-week1-2023-01-02" occurs
twice in the same document.  (The source acknowledges this: "currently get
duplicates where the two calendars overlap".) -/
theorem C1_counterexample :
    isOkB (calendarEventsE 0 "Monday") = true ∧
    ¬ ((calendarEvents 0 "Monday").map (fun e => e.dtstart)).Nodup ∧
    ((calendarEvents 0 "Monday").filter
      (fun e => e.uid == "recycling-week1-2023-01-02")).length = 2 := by decide

set_option maxRecDepth 100000 in
set_option maxHeartbeats 4000000 in
/-- Claim C1, amended: within each single configured year, the resolved
occurrence sequence for every (bin-type index, weekday) pair is strictly
increasing and duplicate-free (hence that year's uids are distinct); it is
only across adjacent years, where the last-day bounds overlap, that dates
and uids repeat within a document. -/
theorem C1_within_year_increasing :
    ((List.range colours.length).all fun i => day_of_week.all fun wd =>
      first_day_of_week.all fun yt =>
        match lookupStr yt.2 wd with
        | none => false
        | some first =>
          match yearEventsE i first (lookupNat last_day_of_year yt.1) 200 0 with
          | .error _ => false
          | .ok evs => decide (List.Pairwise (fun a b => a < b)
              (evs.map (fun e => e.dtstart)))) = true := by decide

/-- Claim C10: for every bin-type index, weekday and configured year
(every configured year has entries in both tables), the week-walking loop
terminates — 200 iterations of fuel already reach the `break`, as
exceptions are finite and candidates grow by 7 days. -/
theorem C10_loop_terminates :
    ((List.range colours.length).all fun i => day_of_week.all fun wd =>
      first_day_of_week.all fun yt =>
        match lookupStr yt.2 wd, lookupNat last_day_of_year yt.1 with
        | some first, some bound => isOkB (yearEventsE i first (some bound) 200 0)
        | _, _ => false) = true := by decide

theorem find_by_name {l : List (String × List Event)} {name : String}
    (h : name ∈ l.map Prod.fst) :
    (l.find? (fun p => p.1 == name)).isSome = true := by
  induction l with
  | nil => cases h
  | cons p t ih =>
    rw [List.map_cons, List.mem_cons] at h
    cases hb : (p.1 == name) with
    | true => simp [List.find?_cons, hb]
    | false =>
      simp only [List.find?_cons, hb]
      apply ih
      rcases h with h1 | h1
      · rw [h1] at hb
        simp at hb
      · exact h1

/-- Claim C8: one run produces exactly
(number of bin types) × (number of weekdays) = 10 files, one per
(bin-type index, weekday) pair, named "week-(index+1)-(weekday).ics" with
the weekday lowercased; and each generated file's final contents are
independent of whatever the filesystem held before (full overwrite, no
merging). -/
theorem C8_output_files :
    outputFiles.length = colours.length * day_of_week.length ∧
    outputFiles.Nodup ∧
    outputFiles = ["week-1-monday.ics", "week-1-tuesday.ics",
      "week-1-wednesday.ics", "week-1-thursday.ics", "week-1-friday.ics",
      "week-2-monday.ics", "week-2-tuesday.ics", "week-2-wednesday.ics",
      "week-2-thursday.ics", "week-2-friday.ics"] ∧
    ∀ fs fs2 name, name ∈ outputFiles →
      writeRun fs name = writeRun fs2 name := by
  refine ⟨by decide, by decide, by decide, ?_⟩
  intro fs fs2 name hmem
  have hnames : outputPairs.map Prod.fst = outputFiles := by decide
  have hsome : (outputPairs.find? (fun p => p.1 == name)).isSome = true := by
    apply find_by_name
    rw [hnames]
    exact hmem
  simp only [writeRun]
  cases hf : outputPairs.find? (fun p => p.1 == name) with
  | none => rw [hf] at hsome; cases hsome
  | some p => rfl

/-- Witness for C8: the week-1 Monday file's contents after a run do not
depend on the prior filesystem state. -/
theorem C8_witness :
    writeRun (fun _ => none) "week-1-monday.ics" =
      writeRun (fun _ => some []) "week-1-monday.ics" :=
  C8_output_files.2.2.2 (fun _ => none) (fun _ => some [])
    "week-1-monday.ics" (by decide)

/-- Claim C9: if a year of the first-occurrence table lacks the requested
weekday entry, or has no entry in the last-day table, the whole run
terminates with an error (the embedded `KeyError`) instead of silently
skipping the year — for the last-day case as soon as the loop reaches the
bound comparison, which happens within two candidates since only one
exception maps to "no occurrence". -/
theorem C9_missing_year_entry (fdow : List (Nat × List (String × Nat)))
    (ldoy : List (Nat × Nat)) (i fuel y : Nat) (wd : String)
    (tbl : List (String × Nat)) (hmem : (y, tbl) ∈ fdow) (hfuel : 2 ≤ fuel)
    (hmiss : lookupStr tbl wd = none ∨ lookupNat ldoy y = none) :
    ∃ msg, buildYearsT ldoy i wd fuel fdow = .error msg := by
  induction fdow with
  | nil => cases hmem
  | cons hd rest ih =>
    obtain ⟨y1, tbl1⟩ := hd
    rcases List.mem_cons.mp hmem with heq | hmem2
    · injection heq with h1 h2
      subst h1
      subst h2
      cases hls : lookupStr tbl wd with
      | none =>
        refine ⟨"KeyError: first_day_of_week weekday", ?_⟩
        simp [buildYearsT, hls]
      | some first =>
        have hldoy : lookupNat ldoy y = none := by
          rcases hmiss with hm | hm
          · rw [hls] at hm; cases hm
          · exact hm
        obtain ⟨msg, herr⟩ := yearEventsE_noBound_error i first 0 fuel hfuel
        exact ⟨msg, by simp [buildYearsT, hls, hldoy, herr]⟩
    · cases hls : lookupStr tbl1 wd with
      | none =>
        refine ⟨"KeyError: first_day_of_week weekday", ?_⟩
        simp [buildYearsT, hls]
      | some first =>
        cases hye : yearEventsE i first (lookupNat ldoy y1) fuel 0 with
        | error msg => exact ⟨msg, by simp [buildYearsT, hls, hye]⟩
        | ok evs =>
          obtain ⟨msg, herr⟩ := ih hmem2
          exact ⟨msg, by simp [buildYearsT, hls, hye, herr]⟩

/-- Witness for C9: a configuration whose 2021 entry has a Monday first
occurrence but no last-day entry aborts with an error. -/
theorem C9_witness :
    ∃ msg, buildYearsT [] 0 "Monday" 2
      [(2021, [("Monday", civil 2021 2 1)])] = .error msg :=
  C9_missing_year_entry [(2021, [("Monday", civil 2021 2 1)])] [] 0 2 2021
    "Monday" [("Monday", civil 2021 2 1)] (List.mem_singleton.mpr rfl)
    (by decide) (Or.inr rfl)

end Recycling
